import Mathlib

/-!
Shallow embedding of the two diagram programs of this repository:

* src/analysis/current-architecture-diagram.py
* src/analysis/proposed-architecture-diagram.py

Both scripts are single linear passes over a matplotlib figure: they create a
canvas, add rounded-box patches, text elements and connection patches in a fixed
order, save the figure to a fixed PNG path at dpi 300 with a tight bounding box,
close the figure, and print one confirmation line.

The embedding records, in source order, every element the scripts hand to the
plotting backend, together with the keyword arguments that appear at each call
site.  Coordinates are rationals (the sources use exact decimal literals).
The plotting backend itself (rasterization, anti-aliasing) is outside the
repository; the few places where a fact about the backend is needed are marked
"Modelled from the spec".
-/

namespace PasArch

/-- A point in the data coordinate system of a diagram. -/
structure Pt where
  x : ℚ
  y : ℚ
deriving DecidableEq

/-- A matplotlib box style string such as "round,pad=0.1", split into the
rounding kind and the pad value. -/
structure BoxStyle where
  kind : String
  pad : ℚ
deriving DecidableEq

/-- The bbox keyword of a text call: box style, fill color, optional alpha. -/
structure TextBoxKw where
  boxstyle : BoxStyle
  facecolor : String
  alpha : Option ℚ
deriving DecidableEq

/-- Keyword arguments of an ax.text call, as used by the two scripts.
A field is none when the call site omits the keyword. -/
structure TextKw where
  fontsize : ℚ
  fontweight : Option String
  ha : Option String
  va : Option String
  fontstyle : Option String
  color : Option String
  bbox : Option TextBoxKw
deriving DecidableEq

/-- Keyword arguments of a ConnectionPatch construction, as used by the two
scripts.  A field is none when the call site omits the keyword. -/
structure ConnKw where
  arrowstyle : Option String
  shrinkA : Option ℚ
  shrinkB : Option ℚ
  mutation_scale : Option ℚ
  fc : Option String
  ec : Option String
  linewidth : Option ℚ
  linestyle : Option String
  color : Option String
  alpha : Option ℚ
deriving DecidableEq

/-- Shape classification from the data model: a Container is one of the large
grouping boxes, a Chip is one of the small per-component boxes drawn inside a
loop over a component list. -/
inductive ShapeKind where
  | container
  | chip
deriving DecidableEq

/-- One element handed to the plotting backend, in the order of the script.
A patch records the lower-left corner (the first positional argument of
FancyBboxPatch), width and height.  A connection records the two endpoints
(xyA, xyB) and the two coordinate-system names. -/
inductive Element where
  | patch (kind : ShapeKind) (xy : Pt) (w h : ℚ) (boxstyle : BoxStyle)
      (facecolor edgecolor : String) (linewidth : ℚ) (alpha : Option ℚ)
  | text (xy : Pt) (content : String) (kw : TextKw)
  | connection (xyA xyB : Pt) (coordsA coordsB : String) (kw : ConnKw)
deriving DecidableEq

/-- Constructing a ConnectionPatch stores the two endpoints and the keyword
arguments; the scripts pass the result to ax.add_artist unchanged. -/
def connectionPatch (xyA xyB : Pt) (coordsA coordsB : String) (kw : ConnKw) :
    Element :=
  Element.connection xyA xyB coordsA coordsB kw

/-- The two endpoint coordinates stored in a connection element. -/
def Element.endpoints : Element → Option (Pt × Pt)
  | .connection a b _ _ _ => some (a, b)
  | _ => none

/-- Modelled from the spec: §4.3 — the backend applies no routing algorithm; a
connector is drawn as the straight segment between exactly the two stored
endpoints, with no intermediate waypoints.  (The rasterizing backend is an
external collaborator, outside the repository sources.) -/
def renderedSegment : Element → Option (Pt × Pt) :=
  Element.endpoints

/-- Modelled from the spec: §4.3 — the backend draws a single arrowhead at the
destination endpoint for arrow style "->", and no arrowhead otherwise. -/
def arrowheadsOf : Element → List Pt
  | .connection _ b _ _ kw => if kw.arrowstyle = some "->" then [b] else []
  | _ => []

/-- The geometric center of a patch element. -/
def Element.rectCenter : Element → Option Pt
  | .patch _ xy w h _ _ _ _ _ => some ⟨xy.x + w / 2, xy.y + h / 2⟩
  | _ => none

/-- Position, content and keyword record of a text element. -/
def Element.textData : Element → Option (Pt × String × TextKw)
  | .text xy s kw => some (xy, s, kw)
  | _ => none

/-- The prefix of a character list before the first occurrence of sep. -/
def takeBefore (sep : Char) : List Char → List Char
  | [] => []
  | c :: cs => if c = sep then [] else c :: takeBefore sep cs

/-- The Python expression s.split(sep)[0]: the part of s before the first occurrence of
sep (the whole of s when sep does not occur). -/
def pySplitHead (sep : Char) (s : String) : String :=
  String.mk (takeBefore sep s.data)

/-- The drawing surface: figure size in inches, data coordinate ranges, and
whether axis decoration is switched off. -/
structure Canvas where
  figW : ℚ
  figH : ℚ
  xmin : ℚ
  xmax : ℚ
  ymin : ℚ
  ymax : ℚ
  axisOff : Bool
deriving DecidableEq

/-- One plt.savefig call: output path, dpi, and the bbox_inches keyword. -/
structure SaveCall where
  path : String
  dpi : ℚ
  bbox_inches : Option String
deriving DecidableEq

end PasArch

namespace PasArch.Current

/-! Embedding of src/analysis/current-architecture-diagram.py, in source
order.  Line numbers refer to that file. -/

/-- Lines 12-15: figsize=(14, 10), xlim (0,10), ylim (0,10), axis off. -/
def canvas : Canvas := ⟨14, 10, 0, 10, 0, 10, true⟩

-- Lines 18-22: color constants.
def java_color : String := "#FF6B35"
def mitm_color : String := "#F7931E"
def audit_color : String := "#4ECDC4"
def credential_color : String := "#45B7D1"
def interface_color : String := "#96CEB4"

/-- Lines 25-26: title text. -/
def title : Element :=
  .text ⟨5, 9.5⟩ "Current Monolithic Java Audit System"
    ⟨18, some "bold", some "center", none, none, none, none⟩

/-- Lines 29-34: main container box. -/
def main_box : Element :=
  .patch .container ⟨0.5, 1⟩ 9 7.5 ⟨"round", 0.1⟩ java_color "black" 2
    (some 0.3)

/-- Line 36. -/
def main_label : Element :=
  .text ⟨5, 8.2⟩ "Java Audit System"
    ⟨16, some "bold", some "center", none, none, none, none⟩

/-- Lines 39-44: MITM proxy layer box. -/
def mitm_box : Element :=
  .patch .container ⟨1, 6⟩ 8 1.8 ⟨"round", 0.05⟩ mitm_color "black" 1
    (some 0.7)

/-- Line 46. -/
def mitm_label : Element :=
  .text ⟨5, 7.5⟩ "MITM Proxy Layer"
    ⟨14, some "bold", some "center", none, none, none, none⟩

/-- Lines 49-54. -/
def mitm_components : List (String × ℚ × ℚ) :=
  [("MonitorSSHAudit.java", 1.5, 6.8),
   ("MonitorVNCAudit.java", 3.5, 6.8),
   ("Rdp2ProxyHandler.java", 5.5, 6.8),
   ("SessionInfo.java", 7.5, 6.8)]

/-- Lines 56-63: the loop body run for each component: a small white chip box
and a centered label holding the component name truncated at the first dot. -/
def chipElems (comp : String) (x y : ℚ) : List Element :=
  [ .patch .chip ⟨x - 0.4, y - 0.15⟩ 0.8 0.3 ⟨"round", 0.02⟩ "white" "black"
      0.5 none,
    .text ⟨x, y⟩ (pySplitHead '.' comp)
      ⟨8, none, some "center", some "center", none, none, none⟩ ]

/-- Lines 66-71: audit logging layer box. -/
def audit_box : Element :=
  .patch .container ⟨1, 3.5⟩ 8 1.8 ⟨"round", 0.05⟩ audit_color "black" 1
    (some 0.7)

/-- Line 73. -/
def audit_label : Element :=
  .text ⟨5, 5⟩ "Audit Logging Layer"
    ⟨14, some "bold", some "center", none, none, none, none⟩

/-- Lines 76-81. -/
def audit_components : List (String × ℚ × ℚ) :=
  [("AuditFile.java", 1.5, 4.3),
   ("DatabaseAuditWriter.java", 3.5, 4.3),
   ("TerminalAuditWriter.java", 5.5, 4.3),
   ("GuessingConnectionLinker.java", 7.5, 4.3)]

/-- Lines 93-98: credential injection service box. -/
def cred_box : Element :=
  .patch .container ⟨1, 1.5⟩ 8 1.2 ⟨"round", 0.05⟩ credential_color "black" 1
    (some 0.7)

/-- Line 100. -/
def cred_label : Element :=
  .text ⟨5, 2.5⟩ "Credential Injection Service"
    ⟨14, some "bold", some "center", none, none, none, none⟩

/-- Line 101. -/
def cred_sublabel : Element :=
  .text ⟨5, 1.9⟩ "CredentialInjectionService.java (Parent Integration)"
    ⟨10, none, some "center", none, none, none, none⟩

/-- Lines 105-107: MITM to Audit arrow. -/
def arrow1 : Element :=
  connectionPatch ⟨5, 6⟩ ⟨5, 5.3⟩ "data" "data"
    ⟨some "->", some 5, some 5, some 20, some "red", some "red", some 2,
     none, none, none⟩

/-- Lines 111-113: MITM to Credential arrow. -/
def arrow2 : Element :=
  connectionPatch ⟨5, 6⟩ ⟨5, 2.7⟩ "data" "data"
    ⟨some "->", some 5, some 5, some 20, some "red", some "red", some 2,
     none, none, none⟩

/-- Lines 117-119: Audit to Credential arrow. -/
def arrow3 : Element :=
  connectionPatch ⟨5, 3.5⟩ ⟨5, 2.7⟩ "data" "data"
    ⟨some "->", some 5, some 5, some 20, some "red", some "red", some 2,
     none, none, none⟩

/-- Lines 123-124: coupling indicator. -/
def coupling_note : Element :=
  .text ⟨5.5, 5.7⟩ "Tight\nCoupling"
    ⟨10, none, some "center", none, none, none,
     some ⟨⟨"round", 0.3⟩, "red", some 0.3⟩⟩

/-- Lines 127-128: client connections callout. -/
def client_note : Element :=
  .text ⟨0.2, 7⟩ "Client\nConnections"
    ⟨10, none, some "center", some "center", none, none,
     some ⟨⟨"round", 0.2⟩, "lightblue", none⟩⟩

/-- Lines 131-133: arrow from client to MITM. -/
def client_arrow : Element :=
  connectionPatch ⟨0.8, 7⟩ ⟨1, 7⟩ "data" "data"
    ⟨some "->", some 5, some 5, some 20, some "blue", some "blue", none,
     none, none, none⟩

/-- Lines 137-145: problems annotation block. -/
def problems_note : Element :=
  .text ⟨0.5, 0.5⟩
    "Problems with Current Architecture:\n• Tight coupling between MITM and audit\n• Single point of failure\n• Difficult to add web client support\n• Complex threading model\n• Data loss risk from coupling"
    ⟨10, none, none, some "bottom", none, none,
     some ⟨⟨"round", 0.3⟩, "yellow", some 0.7⟩⟩

/-- All elements handed to the backend, in the order of the script. -/
def elements : List Element :=
  [title, main_box, main_label, mitm_box, mitm_label]
  ++ mitm_components.flatMap (fun c => chipElems c.1 c.2.1 c.2.2)
  ++ [audit_box, audit_label]
  ++ audit_components.flatMap (fun c => chipElems c.1 c.2.1 c.2.2)
  ++ [cred_box, cred_label, cred_sublabel, arrow1, arrow2, arrow3,
      coupling_note, client_note, client_arrow, problems_note]

/-- Line 148: the single savefig call. -/
def saveCall : SaveCall :=
  ⟨"docs/analysis/current-architecture.png", 300, some "tight"⟩

/-- Line 151: the single print call. -/
def confirmation : String :=
  "Current architecture diagram saved as: docs/analysis/current-architecture.png"

end PasArch.Current

namespace PasArch.Proposed

/-! Embedding of src/analysis/proposed-architecture-diagram.py, in source
order.  Line numbers refer to that file. -/

/-- Lines 12-15: figsize=(16, 12), xlim (0,12), ylim (0,10), axis off. -/
def canvas : Canvas := ⟨16, 12, 0, 12, 0, 10, true⟩

-- Lines 18-22: color constants.
def rust_color : String := "#CE422B"
def java_color : String := "#FF6B35"
def ipc_color : String := "#96CEB4"
def web_color : String := "#45B7D1"
def unchanged_color : String := "#4ECDC4"

/-- Lines 25-26: title text. -/
def title : Element :=
  .text ⟨6, 9.5⟩ "Proposed Separated Architecture: Rust MITM + Java Audit"
    ⟨18, some "bold", some "center", none, none, none, none⟩

/-- Lines 29-34: Rust MITM process box. -/
def rust_box : Element :=
  .patch .container ⟨0.5, 5⟩ 4.5 3.5 ⟨"round", 0.1⟩ rust_color "black" 2
    (some 0.3)

/-- Line 36. -/
def rust_label : Element :=
  .text ⟨2.75, 8.2⟩ "Rust MITM Process"
    ⟨16, some "bold", some "center", none, none, some "white", none⟩

/-- Lines 39-45. -/
def rust_components : List (String × ℚ × ℚ) :=
  [("SSH MITM\n(russh)", 1.5, 7.5),
   ("RDP MITM\n(IronRDP)", 4, 7.5),
   ("WebSocket\nStreaming", 1.5, 6.5),
   ("Credential Lookup\nvia IPC", 4, 6.5),
   ("Protocol State\nManagement", 2.75, 5.5)]

/-- Lines 47-54: the loop body run for each Rust component: a white chip box
and the component text rendered verbatim (no splitting). -/
def rustChipElems (comp : String) (x y : ℚ) : List Element :=
  [ .patch .chip ⟨x - 0.4, y - 0.25⟩ 0.8 0.5 ⟨"round", 0.02⟩ "white" "black"
      0.5 none,
    .text ⟨x, y⟩ comp
      ⟨9, none, some "center", some "center", none, none, none⟩ ]

/-- Lines 57-62: Java audit process box. -/
def java_box : Element :=
  .patch .container ⟨7, 5⟩ 4.5 3.5 ⟨"round", 0.1⟩ java_color "black" 2
    (some 0.3)

/-- Line 64. -/
def java_label : Element :=
  .text ⟨9.25, 8.2⟩ "Java Audit Process"
    ⟨16, some "bold", some "center", none, none, none, none⟩

/-- Lines 67-73. -/
def java_components : List (String × ℚ × ℚ) :=
  [("AuditFile.java\n(UNCHANGED)", 8, 7.5),
   ("DatabaseAuditWriter.java\n(UNCHANGED)", 10.5, 7.5),
   ("TerminalAuditWriter.java\n(UNCHANGED)", 8, 6.5),
   ("GuessingConnectionLinker.java\n(UNCHANGED)", 10.5, 6.5),
   ("CredentialInjectionService.java\n(UNCHANGED)", 9.25, 5.5)]

/-- Lines 75-85: the loop body run for each Java component: a colored chip
box, the component text truncated at the first newline, and a separate italic
"(UNCHANGED)" text 0.15 units below the chip center. -/
def javaChipElems (comp : String) (x y : ℚ) : List Element :=
  [ .patch .chip ⟨x - 0.4, y - 0.25⟩ 0.8 0.5 ⟨"round", 0.02⟩ unchanged_color
      "black" 0.5 (some 0.8),
    .text ⟨x, y⟩ (pySplitHead '\n' comp)
      ⟨8, none, some "center", some "center", none, none, none⟩,
    .text ⟨x, y - 0.15⟩ "(UNCHANGED)"
      ⟨7, some "bold", some "center", some "center", some "italic",
       some "green", none⟩ ]

/-- Lines 88-93: IPC interface box. -/
def ipc_box : Element :=
  .patch .container ⟨5.25, 6⟩ 1.5 2 ⟨"round", 0.05⟩ ipc_color "black" 2
    (some 0.8)

/-- Line 95. -/
def ipc_label : Element :=
  .text ⟨6, 7.5⟩ "IPC Interface"
    ⟨12, some "bold", some "center", none, none, none, none⟩

/-- Lines 97-102. -/
def ipc_components : List String :=
  ["Credential Lookup", "Audit Events", "Session Lifecycle", "WebSocket Data"]

/-- Lines 104-105: one bullet line per IPC component, stepping down 0.2 per
index. -/
def ipcBulletElems : List Element :=
  ipc_components.enum.map (fun p =>
    .text ⟨6, 7.2 - (p.1 : ℚ) * 0.2⟩ ("• " ++ p.2)
      ⟨8, none, some "center", none, none, none, none⟩)

/-- Lines 108-110. -/
def ipc_arrow1 : Element :=
  connectionPatch ⟨5, 7⟩ ⟨5.25, 7⟩ "data" "data"
    ⟨some "->", some 5, some 5, some 20, some "green", some "green", some 3,
     none, none, none⟩

/-- Lines 113-115. -/
def ipc_arrow2 : Element :=
  connectionPatch ⟨6.75, 7⟩ ⟨7, 7⟩ "data" "data"
    ⟨some "->", some 5, some 5, some 20, some "green", some "green", some 3,
     none, none, none⟩

/-- Lines 118-120. -/
def ipc_arrow3 : Element :=
  connectionPatch ⟨7, 6.5⟩ ⟨6.75, 6.5⟩ "data" "data"
    ⟨some "->", some 5, some 5, some 20, some "green", some "green", some 3,
     none, none, none⟩

/-- Lines 123-125. -/
def ipc_arrow4 : Element :=
  connectionPatch ⟨5.25, 6.5⟩ ⟨5, 6.5⟩ "data" "data"
    ⟨some "->", some 5, some 5, some 20, some "green", some "green", some 3,
     none, none, none⟩

/-- Lines 129-130. -/
def native_clients_note : Element :=
  .text ⟨0.2, 7⟩ "Native\nClients"
    ⟨10, none, some "center", some "center", none, none,
     some ⟨⟨"round", 0.2⟩, "lightblue", none⟩⟩

/-- Lines 132-133. -/
def web_clients_note : Element :=
  .text ⟨0.2, 5.5⟩ "Web\nClients"
    ⟨10, none, some "center", some "center", none, none,
     some ⟨⟨"round", 0.2⟩, web_color, none⟩⟩

/-- Lines 136-138. -/
def client_arrow1 : Element :=
  connectionPatch ⟨0.8, 7⟩ ⟨0.5, 7⟩ "data" "data"
    ⟨some "->", some 5, some 5, some 20, some "blue", some "blue", none,
     none, none, none⟩

/-- Lines 141-143. -/
def client_arrow2 : Element :=
  connectionPatch ⟨0.8, 5.5⟩ ⟨0.5, 6⟩ "data" "data"
    ⟨some "->", some 5, some 5, some 20, some web_color, some web_color, none,
     none, none, none⟩

/-- Lines 147-148. -/
def database_note : Element :=
  .text ⟨9.25, 4.5⟩ "Database"
    ⟨10, none, some "center", some "center", none, none,
     some ⟨⟨"round", 0.2⟩, "lightgray", none⟩⟩

/-- Lines 150-151. -/
def audit_files_note : Element :=
  .text ⟨11, 4.5⟩ "Audit Files"
    ⟨10, none, some "center", some "center", none, none,
     some ⟨⟨"round", 0.2⟩, "lightgray", none⟩⟩

/-- Lines 154-156. -/
def db_arrow : Element :=
  connectionPatch ⟨9.25, 5⟩ ⟨9.25, 4.7⟩ "data" "data"
    ⟨some "->", some 5, some 5, some 20, some "gray", some "gray", none,
     none, none, none⟩

/-- Lines 159-161. -/
def file_arrow : Element :=
  connectionPatch ⟨10.5, 5⟩ ⟨11, 4.7⟩ "data" "data"
    ⟨some "->", some 5, some 5, some 20, some "gray", some "gray", none,
     none, none, none⟩

/-- Lines 165-174: benefits annotation block. -/
def benefits_note : Element :=
  .text ⟨0.5, 3.5⟩
    "Benefits of Separated Architecture:\n• Loose coupling via IPC interface\n• Independent failure domains\n• Web client support built-in\n• Rust memory safety and performance\n• Preserved audit architecture (95% unchanged)\n• Minimal risk to existing functionality"
    ⟨11, none, none, some "top", none, none,
     some ⟨⟨"round", 0.3⟩, "lightgreen", some 0.7⟩⟩

/-- Lines 177-185: technical details block. -/
def tech_note : Element :=
  .text ⟨6.5, 3.5⟩
    "Technical Implementation:\n• IPC: Unix Domain Sockets / Named Pipes\n• Serialization: MessagePack (binary)\n• Error Handling: Timeout + Retry + Fallback\n• Performance: <10ms IPC overhead\n• Compatibility: 100% audit format preservation"
    ⟨11, none, none, some "top", none, none,
     some ⟨⟨"round", 0.3⟩, "lightyellow", some 0.7⟩⟩

/-- Lines 188-189: bidirectional IPC indicator. -/
def bidir_note : Element :=
  .text ⟨6, 8.7⟩ "↕ Bidirectional IPC"
    ⟨10, none, some "center", none, none, none,
     some ⟨⟨"round", 0.2⟩, "green", some 0.3⟩⟩

/-- Lines 192-194: dashed process-boundary divider (no arrow style). -/
def separation_line : Element :=
  connectionPatch ⟨5.75, 4.5⟩ ⟨5.75, 8.5⟩ "data" "data"
    ⟨none, none, none, none, none, none, some 3, some "--", some "red",
     some 0.7⟩

/-- Line 195. -/
def boundary_note : Element :=
  .text ⟨5.75, 4.2⟩ "Process Boundary"
    ⟨10, some "bold", some "center", none, none, some "red", none⟩

/-- All elements handed to the backend, in the order of the script. -/
def elements : List Element :=
  [title, rust_box, rust_label]
  ++ rust_components.flatMap (fun c => rustChipElems c.1 c.2.1 c.2.2)
  ++ [java_box, java_label]
  ++ java_components.flatMap (fun c => javaChipElems c.1 c.2.1 c.2.2)
  ++ [ipc_box, ipc_label]
  ++ ipcBulletElems
  ++ [ipc_arrow1, ipc_arrow2, ipc_arrow3, ipc_arrow4,
      native_clients_note, web_clients_note, client_arrow1, client_arrow2,
      database_note, audit_files_note, db_arrow, file_arrow,
      benefits_note, tech_note, bidir_note, separation_line, boundary_note]

/-- Line 198: the single savefig call. -/
def saveCall : SaveCall :=
  ⟨"docs/analysis/proposed-architecture.png", 300, some "tight"⟩

/-- Line 201: the single print call. -/
def confirmation : String :=
  "Proposed architecture diagram saved as: docs/analysis/proposed-architecture.png"

end PasArch.Proposed

namespace PasArch

/-- The observable outcome of one run of a diagram script.  Each script ends
with the straight-line sequence plt.savefig(...); plt.close(); print(...).
The scripts install no exception handler, so when the savefig write fails the
host runtime propagates the error: the close and print statements are never
reached and the process exits unsuccessfully. -/
structure RunResult where
  canvas : Canvas
  elements : List Element
  savedFiles : List SaveCall
  closedCanvas : Bool
  printed : List String
  exitOk : Bool
deriving DecidableEq

/-- One run of src/analysis/current-architecture-diagram.py.  The saveOk flag
is the only external condition the script depends on: whether the savefig
write to the fixed output path succeeds. -/
def runCurrent (saveOk : Bool) : RunResult :=
  if saveOk then
    ⟨Current.canvas, Current.elements, [Current.saveCall], true,
     [Current.confirmation], true⟩
  else
    ⟨Current.canvas, Current.elements, [], false, [], false⟩

/-- One run of src/analysis/proposed-architecture-diagram.py. -/
def runProposed (saveOk : Bool) : RunResult :=
  if saveOk then
    ⟨Proposed.canvas, Proposed.elements, [Proposed.saveCall], true,
     [Proposed.confirmation], true⟩
  else
    ⟨Proposed.canvas, Proposed.elements, [], false, [], false⟩

/-- Modelled from the spec: §4.5 — the per-Diagram lifecycle
Configuring → Populating → Exported (terminal).  The scripts contain no
Diagram type of their own (they drive the external backend directly), so the
state machine the spec prescribes is modelled from its words here. -/
inductive Phase where
  | configuring
  | populating
  | exported
deriving DecidableEq

/-- Modelled from the spec: a Diagram aggregates a phase and the ordered
element sequence. -/
structure Diagram where
  phase : Phase
  elems : List Element
deriving DecidableEq

/-- The three populate-phase operations: placing a shape, drawing a
connector, drawing a free-text block. -/
inductive PopulateOp where
  | placeShape (e : Element)
  | drawConnector (xyA xyB : Pt) (coordsA coordsB : String) (kw : ConnKw)
  | drawFreeText (xy : Pt) (content : String) (kw : TextKw)
deriving DecidableEq

/-- The element a populate operation appends. -/
def PopulateOp.element : PopulateOp → Element
  | .placeShape e => e
  | .drawConnector a b cA cB kw => Element.connection a b cA cB kw
  | .drawFreeText xy s kw => Element.text xy s kw

/-- Modelled from the spec: §4.5 and §8 — any populate-phase operation on an
exported Diagram fails with the state error "diagram already exported";
otherwise the element is appended to the draw order. -/
def populateStep (d : Diagram) (op : PopulateOp) : Except String Diagram :=
  match d.phase with
  | .exported => .error "diagram already exported"
  | _ => .ok ⟨.populating, d.elems ++ [op.element]⟩

/-- Modelled from the spec: §4.5 — export flattens the Diagram to a raster
file and moves it to the terminal Exported phase; export must be called
exactly once, so a second export is also a state error. -/
def exportStep (d : Diagram) (path : String) (dpi : ℚ) :
    Except String (Diagram × SaveCall) :=
  match d.phase with
  | .exported => .error "diagram already exported"
  | _ => .ok (⟨.exported, d.elems⟩, ⟨path, dpi, some "tight"⟩)

/-- Axis-aligned rectangle given by its two corners. -/
structure Rect where
  x1 : ℚ
  y1 : ℚ
  x2 : ℚ
  y2 : ℚ
deriving DecidableEq

/-- The rectangle of a patch placed with lower-left corner xy. -/
def patchRect (xy : Pt) (w h : ℚ) : Rect :=
  ⟨xy.x, xy.y, xy.x + w, xy.y + h⟩

/-- Two closed axis-aligned rectangles share at least one point. -/
def Rect.overlaps (r s : Rect) : Prop :=
  r.x1 ≤ s.x2 ∧ s.x1 ≤ r.x2 ∧ r.y1 ≤ s.y2 ∧ s.y1 ≤ r.y2

/-- Cross product of b - a with p - a, the side-of-line test. -/
def cross (a b p : Pt) : ℚ :=
  (b.x - a.x) * (p.y - a.y) - (b.y - a.y) * (p.x - a.x)

/-- The closed segment from a to b meets the closed rectangle r: their
bounding boxes overlap and r does not lie strictly on one side of the line
through a and b. -/
def segMeetsRect (a b : Pt) (r : Rect) : Prop :=
  Rect.overlaps ⟨min a.x b.x, min a.y b.y, max a.x b.x, max a.y b.y⟩ r ∧
  ¬ (0 < cross a b ⟨r.x1, r.y1⟩ ∧ 0 < cross a b ⟨r.x2, r.y1⟩ ∧
     0 < cross a b ⟨r.x1, r.y2⟩ ∧ 0 < cross a b ⟨r.x2, r.y2⟩) ∧
  ¬ (cross a b ⟨r.x1, r.y1⟩ < 0 ∧ cross a b ⟨r.x2, r.y1⟩ < 0 ∧
     cross a b ⟨r.x1, r.y2⟩ < 0 ∧ cross a b ⟨r.x2, r.y2⟩ < 0)

/-- The geometric footprint of an element: the classified rectangle of a
patch, the segment of a connection, or a marker for text. -/
inductive Footprint where
  | box (kind : ShapeKind) (r : Rect)
  | seg (a b : Pt)
  | txt
deriving DecidableEq

/-- The footprint of each element. -/
def Element.footprint : Element → Footprint
  | .patch k xy w h _ _ _ _ _ => .box k (patchRect xy w h)
  | .connection a b _ _ _ => .seg a b
  | .text _ _ _ => .txt

/-- The footprint sits visually on the rectangle r: a chip box overlapping r,
or a connector segment meeting r.  Containers and text are not counted. -/
def sitsOnRect (r : Rect) : Footprint → Prop
  | .box .chip s => s.overlaps r
  | .seg a b => segMeetsRect a b r
  | _ => False

/-- Walking the draw order front to back with the already-inserted footprints
accumulated in seen: whenever a container is reached, no chip or connector
inserted before it may sit on top of it — equivalently, every chip and
connector that sits on a container was inserted after that container. -/
def containersBeforeOverlays : List Footprint → List Footprint → Prop
  | _, [] => True
  | seen, f :: rest =>
      (match f with
       | .box .container r => ∀ g ∈ seen, ¬ sitsOnRect r g
       | _ => True) ∧
      containersBeforeOverlays (f :: seen) rest

/-- Whether an element covers a point: patches cover their closed rectangle,
texts their anchor point, connections their closed segment. -/
def coversPt (e : Element) (p : Pt) : Bool :=
  match e with
  | .patch _ xy w h _ _ _ _ _ =>
      decide (xy.x ≤ p.x ∧ p.x ≤ xy.x + w ∧ xy.y ≤ p.y ∧ p.y ≤ xy.y + h)
  | .text xy _ _ => decide (xy = p)
  | .connection a b _ _ _ =>
      decide (cross a b p = 0 ∧ min a.x b.x ≤ p.x ∧ p.x ≤ max a.x b.x ∧
              min a.y b.y ≤ p.y ∧ p.y ≤ max a.y b.y)

/-- Modelled from the spec: §3 — the backend paints elements back-to-front in
list order, so the element visible at a point is the last one in the draw
order that covers it. -/
def topElementAt (elems : List Element) (p : Pt) : Option Element :=
  (elems.filter (fun e => coversPt e p)).getLast?

/-- The point lies in the canvas data coordinate range. -/
def ptInCanvas (c : Canvas) (p : Pt) : Prop :=
  c.xmin ≤ p.x ∧ p.x ≤ c.xmax ∧ c.ymin ≤ p.y ∧ p.y ≤ c.ymax

/-- All coordinates specified for the element lie in the canvas range: both
corners for patches, the anchor for texts, both endpoints for connections. -/
def elemInBounds (c : Canvas) : Element → Prop
  | .patch _ xy w h _ _ _ _ _ =>
      ptInCanvas c xy ∧ ptInCanvas c ⟨xy.x + w, xy.y + h⟩
  | .text xy _ _ => ptInCanvas c xy
  | .connection a b _ _ _ => ptInCanvas c a ∧ ptInCanvas c b

/-- Every connection drawn by the scripts either is a unidirectional "->"
arrow or is the dashed divider drawn with no arrow style. -/
def connStyleOk : Element → Prop
  | .connection _ _ _ _ kw =>
      kw.arrowstyle = some "->" ∨
      (kw.arrowstyle = none ∧ kw.linestyle = some "--")
  | _ => True

/-- Style record of the spec-level shape placer. -/
structure ShapeStyle where
  boxstyle : BoxStyle
  facecolor : String
  edgecolor : String
  linewidth : ℚ
  alpha : Option ℚ
deriving DecidableEq

/-- Modelled from the spec: §4.2 — place_container(x, y, w, h, style) draws a
rounded rectangle whose center is (x, y) with extent w by h. -/
def place_container (x y w h : ℚ) (st : ShapeStyle) : Element :=
  .patch .container ⟨x - w / 2, y - h / 2⟩ w h st.boxstyle st.facecolor
    st.edgecolor st.linewidth st.alpha

/-- Modelled from the spec: §4.2 — place_chip(x, y, w, h, label, style) draws
a rounded rectangle whose center is (x, y) and centers the text label inside
it. -/
def place_chip (x y w h : ℚ) (label : String) (st : ShapeStyle)
    (fontsize : ℚ) : List Element :=
  [ .patch .chip ⟨x - w / 2, y - h / 2⟩ w h st.boxstyle st.facecolor
      st.edgecolor st.linewidth st.alpha,
    .text ⟨x, y⟩ label
      ⟨fontsize, none, some "center", some "center", none, none, none⟩ ]

/-- C1: connector endpoints are taken verbatim.  Constructing a connection
patch stores exactly the two points given at the call site, the rendered line
is the straight segment between exactly those two points (no rerouting, no
endpoint displacement), and in particular the connector requested between
(0.8,7) and (1,7) in the current-architecture diagram — client_arrow — is in
the draw order with exactly those two extreme points, as is the connector
ipc_arrow1 between (5,7) and (5.25,7) in the proposed-architecture diagram. -/
theorem connector_endpoints_verbatim :
    (∀ (xyA xyB : Pt) (cA cB : String) (kw : ConnKw),
      renderedSegment (connectionPatch xyA xyB cA cB kw) = some (xyA, xyB)) ∧
    Current.client_arrow ∈ Current.elements ∧
    renderedSegment Current.client_arrow = some (⟨0.8, 7⟩, ⟨1, 7⟩) ∧
    Proposed.ipc_arrow1 ∈ Proposed.elements ∧
    renderedSegment Proposed.ipc_arrow1 = some (⟨5, 7⟩, ⟨5.25, 7⟩) := by
  refine ⟨fun a b cA cB kw => rfl, ?_, rfl, ?_, rfl⟩
  · simp [Current.elements]
  · simp [Proposed.elements]

/-- C2: after export, every populate-phase operation (placing a shape,
drawing a connector, drawing a free-text block) and every further export
fails with the state error "diagram already exported"; no operation yields a
successor Diagram, so no transition leaves the Exported phase. -/
theorem populate_after_export_fails :
    ∀ (d : Diagram) (op : PopulateOp) (path : String) (dpi : ℚ),
      d.phase = Phase.exported →
      populateStep d op = .error "diagram already exported" ∧
      exportStep d path dpi = .error "diagram already exported" := by
  intro d op path dpi h
  constructor <;> simp [populateStep, exportStep, h]

/-- C2 witness: the failure is observable on a concrete exported diagram. -/
theorem populate_after_export_fails_witness :
    populateStep ⟨Phase.exported, []⟩
        (PopulateOp.drawFreeText ⟨1, 1⟩ "late"
          ⟨10, none, none, none, none, none, none⟩) =
      .error "diagram already exported" ∧
    exportStep ⟨Phase.exported, []⟩ "docs/analysis/late.png" 300 =
      .error "diagram already exported" :=
  populate_after_export_fails ⟨Phase.exported, []⟩ _ "docs/analysis/late.png"
    300 rfl

/-- C3 counterexample: on the execution path where the savefig write fails,
neither script releases the canvas — plt.close() is the statement after
plt.savefig(...) with no try/finally, so the propagating error skips it. -/
theorem canvas_release_counterexample :
    (runCurrent false).closedCanvas = false ∧
    (runProposed false).closedCanvas = false :=
  ⟨rfl, rfl⟩

/-- C3 amended: the canvas is released after a successful export, but on the
path where the export write fails the error propagates before plt.close()
runs and the canvas is not released. -/
theorem canvas_release_success_only :
    (runCurrent true).closedCanvas = true ∧
    (runProposed true).closedCanvas = true ∧
    (runCurrent false).closedCanvas = false ∧
    (runProposed false).closedCanvas = false :=
  ⟨rfl, rfl, rfl, rfl⟩

/-- C5: the spec-level shape placers draw a rounded rectangle centered at the
given (x, y); the chip loops of both scripts are exactly spec-level chip
placements, so every chip rectangle is centered at the loop coordinates (x, y) and
every chip label is anchored at that same geometric center. -/
theorem shape_placement_centered :
    (∀ (x y w h : ℚ) (st : ShapeStyle),
      (place_container x y w h st).rectCenter = some ⟨x, y⟩) ∧
    (∀ (x y w h : ℚ) (label : String) (st : ShapeStyle) (fs : ℚ),
      ((place_chip x y w h label st fs).head?.bind Element.rectCenter) =
        some ⟨x, y⟩ ∧
      ((place_chip x y w h label st fs).getLast?.bind Element.textData) =
        some (⟨x, y⟩, label,
          ⟨fs, none, some "center", some "center", none, none, none⟩)) ∧
    (∀ (comp : String) (x y : ℚ),
      Current.chipElems comp x y =
        place_chip x y 0.8 0.3 (pySplitHead '.' comp)
          ⟨⟨"round", 0.02⟩, "white", "black", 0.5, none⟩ 8) ∧
    (∀ (comp : String) (x y : ℚ),
      Proposed.rustChipElems comp x y =
        place_chip x y 0.8 0.5 comp
          ⟨⟨"round", 0.02⟩, "white", "black", 0.5, none⟩ 9) ∧
    (∀ (comp : String) (x y : ℚ),
      (Proposed.javaChipElems comp x y).take 2 =
        place_chip x y 0.8 0.5 (pySplitHead '\n' comp)
          ⟨⟨"round", 0.02⟩, Proposed.unchanged_color, "black", 0.5,
           some 0.8⟩ 8) := by
  refine ⟨?_, ?_, ?_, ?_, ?_⟩
  · intro x y w h st
    simp [place_container, Element.rectCenter]
  · intro x y w h label st fs
    refine ⟨?_, rfl⟩
    simp [place_chip, Element.rectCenter]
  · intro comp x y
    simp [Current.chipElems, place_chip]
    norm_num
  · intro comp x y
    simp [Proposed.rustChipElems, place_chip]
    norm_num
  · intro comp x y
    simp [Proposed.javaChipElems, place_chip]
    norm_num

/-- C6: each diagram program is deterministic — the canvas and the full
element geometry produced by a run do not depend on anything outside the
program, so re-running the complete configure, populate, export sequence
yields identical geometry. -/
theorem rerun_deterministic :
    ∀ (b b' : Bool),
      (runCurrent b).canvas = (runCurrent b').canvas ∧
      (runCurrent b).elements = (runCurrent b').elements ∧
      (runProposed b).canvas = (runProposed b').canvas ∧
      (runProposed b).elements = (runProposed b').elements := by
  intro b b'
  cases b <;> cases b' <;> exact ⟨rfl, rfl, rfl, rfl⟩

/-- C7: a successful run of each script writes exactly one raster file, at
its fixed hard-coded path, at dpi 300, with bbox_inches tight, and then
prints exactly one confirmation line. -/
theorem single_export_single_message :
    (runCurrent true).savedFiles =
      [⟨"docs/analysis/current-architecture.png", 300, some "tight"⟩] ∧
    (runCurrent true).printed =
      ["Current architecture diagram saved as: docs/analysis/current-architecture.png"] ∧
    (runProposed true).savedFiles =
      [⟨"docs/analysis/proposed-architecture.png", 300, some "tight"⟩] ∧
    (runProposed true).printed =
      ["Proposed architecture diagram saved as: docs/analysis/proposed-architecture.png"] :=
  ⟨rfl, rfl, rfl, rfl⟩

/-- C10: chip labels are not rendered verbatim.  Every chip of the
current-architecture diagram draws the component string truncated at the
first dot (so "MonitorSSHAudit.java" renders as "MonitorSSHAudit"), and every
Java-component chip of the proposed-architecture diagram draws the substring
before the first newline plus a separate italic "(UNCHANGED)" text 0.15 units
below the chip center. -/
theorem chip_labels_truncated :
    pySplitHead '.' "MonitorSSHAudit.java" = "MonitorSSHAudit" ∧
    pySplitHead '.' "MonitorSSHAudit.java" ≠ "MonitorSSHAudit.java" ∧
    (∀ (comp : String) (x y : ℚ),
      (Current.chipElems comp x y).filterMap Element.textData =
        [(⟨x, y⟩, pySplitHead '.' comp,
          ⟨8, none, some "center", some "center", none, none, none⟩)]) ∧
    Current.mitm_components.map (fun c => pySplitHead '.' c.1) =
      ["MonitorSSHAudit", "MonitorVNCAudit", "Rdp2ProxyHandler",
       "SessionInfo"] ∧
    Current.audit_components.map (fun c => pySplitHead '.' c.1) =
      ["AuditFile", "DatabaseAuditWriter", "TerminalAuditWriter",
       "GuessingConnectionLinker"] ∧
    (∀ (comp : String) (x y : ℚ),
      (Proposed.javaChipElems comp x y).filterMap Element.textData =
        [(⟨x, y⟩, pySplitHead '\n' comp,
          ⟨8, none, some "center", some "center", none, none, none⟩),
         (⟨x, y - 0.15⟩, "(UNCHANGED)",
          ⟨7, some "bold", some "center", some "center", some "italic",
           some "green", none⟩)]) ∧
    Proposed.java_components.map (fun c => pySplitHead '\n' c.1) =
      ["AuditFile.java", "DatabaseAuditWriter.java",
       "TerminalAuditWriter.java", "GuessingConnectionLinker.java",
       "CredentialInjectionService.java"] := by
  refine ⟨by decide, by decide, fun comp x y => rfl, by decide, by decide,
    fun comp x y => rfl, by decide⟩

/-- C8: every coordinate specified for any shape, connector or annotation of
either diagram lies within the canvas bounds: [0,10] x [0,10] for the
current-architecture diagram and [0,12] x [0,10] for the proposed one. -/
theorem coordinates_in_bounds :
    List.Forall (elemInBounds Current.canvas) Current.elements ∧
    List.Forall (elemInBounds Proposed.canvas) Proposed.elements := by
  constructor
  · norm_num [Current.elements, Current.title, Current.main_box,
      Current.main_label, Current.mitm_box, Current.mitm_label,
      Current.mitm_components, Current.chipElems, Current.audit_box,
      Current.audit_label, Current.audit_components, Current.cred_box,
      Current.cred_label, Current.cred_sublabel, Current.arrow1,
      Current.arrow2, Current.arrow3, Current.coupling_note,
      Current.client_note, Current.client_arrow, Current.problems_note,
      connectionPatch, Current.canvas, List.forall_cons, elemInBounds,
      ptInCanvas]
  · norm_num [Proposed.elements, Proposed.title, Proposed.rust_box,
      Proposed.rust_label, Proposed.rust_components, Proposed.rustChipElems,
      Proposed.java_box, Proposed.java_label, Proposed.java_components,
      Proposed.javaChipElems, Proposed.ipc_box, Proposed.ipc_label,
      Proposed.ipc_components, Proposed.ipcBulletElems, Proposed.ipc_arrow1,
      Proposed.ipc_arrow2, Proposed.ipc_arrow3, Proposed.ipc_arrow4,
      Proposed.native_clients_note, Proposed.web_clients_note,
      Proposed.client_arrow1, Proposed.client_arrow2, Proposed.database_note,
      Proposed.audit_files_note, Proposed.db_arrow, Proposed.file_arrow,
      Proposed.benefits_note, Proposed.tech_note, Proposed.bidir_note,
      Proposed.separation_line, Proposed.boundary_note, connectionPatch,
      Proposed.canvas, List.forall_cons, elemInBounds, ptInCanvas]

/-- C9: every connection patch is rendered as the straight segment between
exactly the two given points with, for arrow style "->", a single arrowhead
at the destination point; every connector of both diagrams either is such a
unidirectional "->" arrow or is the dashed no-arrowhead divider. -/
theorem connectors_straight_single_arrowhead :
    (∀ (xyA xyB : Pt) (cA cB : String) (kw : ConnKw),
      renderedSegment (connectionPatch xyA xyB cA cB kw) = some (xyA, xyB) ∧
      arrowheadsOf (connectionPatch xyA xyB cA cB kw) =
        if kw.arrowstyle = some "->" then [xyB] else []) ∧
    arrowheadsOf Current.arrow1 = [⟨5, 5.3⟩] ∧
    arrowheadsOf Proposed.separation_line = [] ∧
    List.Forall connStyleOk Current.elements ∧
    List.Forall connStyleOk Proposed.elements := by
  refine ⟨fun a b cA cB kw => ⟨rfl, rfl⟩, rfl, rfl, ?_, ?_⟩
  · simp [Current.elements, Current.title, Current.main_box,
      Current.main_label, Current.mitm_box, Current.mitm_label,
      Current.mitm_components, Current.chipElems, Current.audit_box,
      Current.audit_label, Current.audit_components, Current.cred_box,
      Current.cred_label, Current.cred_sublabel, Current.arrow1,
      Current.arrow2, Current.arrow3, Current.coupling_note,
      Current.client_note, Current.client_arrow, Current.problems_note,
      connectionPatch, List.forall_cons, connStyleOk]
  · simp [Proposed.elements, Proposed.title, Proposed.rust_box,
      Proposed.rust_label, Proposed.rust_components, Proposed.rustChipElems,
      Proposed.java_box, Proposed.java_label, Proposed.java_components,
      Proposed.javaChipElems, Proposed.ipc_box, Proposed.ipc_label,
      Proposed.ipc_components, Proposed.ipcBulletElems, Proposed.ipc_arrow1,
      Proposed.ipc_arrow2, Proposed.ipc_arrow3, Proposed.ipc_arrow4,
      Proposed.native_clients_note, Proposed.web_clients_note,
      Proposed.client_arrow1, Proposed.client_arrow2, Proposed.database_note,
      Proposed.audit_files_note, Proposed.db_arrow, Proposed.file_arrow,
      Proposed.benefits_note, Proposed.tech_note, Proposed.bidir_note,
      Proposed.separation_line, Proposed.boundary_note, connectionPatch,
      List.forall_cons, connStyleOk]

/-- Helper: the footprint sequence of the current-architecture draw order,
evaluated to a literal list. -/
theorem current_footprints :
    Current.elements.map Element.footprint =
      [Footprint.txt,
       Footprint.box .container ⟨0.5, 1, 9.5, 8.5⟩,
       Footprint.txt,
       Footprint.box .container ⟨1, 6, 9, 7.8⟩,
       Footprint.txt,
       Footprint.box .chip ⟨1.1, 6.65, 1.9, 6.95⟩, Footprint.txt,
       Footprint.box .chip ⟨3.1, 6.65, 3.9, 6.95⟩, Footprint.txt,
       Footprint.box .chip ⟨5.1, 6.65, 5.9, 6.95⟩, Footprint.txt,
       Footprint.box .chip ⟨7.1, 6.65, 7.9, 6.95⟩, Footprint.txt,
       Footprint.box .container ⟨1, 3.5, 9, 5.3⟩,
       Footprint.txt,
       Footprint.box .chip ⟨1.1, 4.15, 1.9, 4.45⟩, Footprint.txt,
       Footprint.box .chip ⟨3.1, 4.15, 3.9, 4.45⟩, Footprint.txt,
       Footprint.box .chip ⟨5.1, 4.15, 5.9, 4.45⟩, Footprint.txt,
       Footprint.box .chip ⟨7.1, 4.15, 7.9, 4.45⟩, Footprint.txt,
       Footprint.box .container ⟨1, 1.5, 9, 2.7⟩,
       Footprint.txt, Footprint.txt,
       Footprint.seg ⟨5, 6⟩ ⟨5, 5.3⟩,
       Footprint.seg ⟨5, 6⟩ ⟨5, 2.7⟩,
       Footprint.seg ⟨5, 3.5⟩ ⟨5, 2.7⟩,
       Footprint.txt, Footprint.txt,
       Footprint.seg ⟨0.8, 7⟩ ⟨1, 7⟩,
       Footprint.txt] := by
  norm_num [Current.elements, Current.title, Current.main_box,
    Current.main_label, Current.mitm_box, Current.mitm_label,
    Current.mitm_components, Current.chipElems, Current.audit_box,
    Current.audit_label, Current.audit_components, Current.cred_box,
    Current.cred_label, Current.cred_sublabel, Current.arrow1,
    Current.arrow2, Current.arrow3, Current.coupling_note,
    Current.client_note, Current.client_arrow, Current.problems_note,
    connectionPatch, Element.footprint, patchRect]

/-- Helper: the footprint sequence of the proposed-architecture draw order,
evaluated to a literal list. -/
theorem proposed_footprints :
    Proposed.elements.map Element.footprint =
      [Footprint.txt,
       Footprint.box .container ⟨0.5, 5, 5, 8.5⟩,
       Footprint.txt,
       Footprint.box .chip ⟨1.1, 7.25, 1.9, 7.75⟩, Footprint.txt,
       Footprint.box .chip ⟨3.6, 7.25, 4.4, 7.75⟩, Footprint.txt,
       Footprint.box .chip ⟨1.1, 6.25, 1.9, 6.75⟩, Footprint.txt,
       Footprint.box .chip ⟨3.6, 6.25, 4.4, 6.75⟩, Footprint.txt,
       Footprint.box .chip ⟨2.35, 5.25, 3.15, 5.75⟩, Footprint.txt,
       Footprint.box .container ⟨7, 5, 11.5, 8.5⟩,
       Footprint.txt,
       Footprint.box .chip ⟨7.6, 7.25, 8.4, 7.75⟩, Footprint.txt,
       Footprint.txt,
       Footprint.box .chip ⟨10.1, 7.25, 10.9, 7.75⟩, Footprint.txt,
       Footprint.txt,
       Footprint.box .chip ⟨7.6, 6.25, 8.4, 6.75⟩, Footprint.txt,
       Footprint.txt,
       Footprint.box .chip ⟨10.1, 6.25, 10.9, 6.75⟩, Footprint.txt,
       Footprint.txt,
       Footprint.box .chip ⟨8.85, 5.25, 9.65, 5.75⟩, Footprint.txt,
       Footprint.txt,
       Footprint.box .container ⟨5.25, 6, 6.75, 8⟩,
       Footprint.txt,
       Footprint.txt, Footprint.txt, Footprint.txt, Footprint.txt,
       Footprint.seg ⟨5, 7⟩ ⟨5.25, 7⟩,
       Footprint.seg ⟨6.75, 7⟩ ⟨7, 7⟩,
       Footprint.seg ⟨7, 6.5⟩ ⟨6.75, 6.5⟩,
       Footprint.seg ⟨5.25, 6.5⟩ ⟨5, 6.5⟩,
       Footprint.txt, Footprint.txt,
       Footprint.seg ⟨0.8, 7⟩ ⟨0.5, 7⟩,
       Footprint.seg ⟨0.8, 5.5⟩ ⟨0.5, 6⟩,
       Footprint.txt, Footprint.txt,
       Footprint.seg ⟨9.25, 5⟩ ⟨9.25, 4.7⟩,
       Footprint.seg ⟨10.5, 5⟩ ⟨11, 4.7⟩,
       Footprint.txt, Footprint.txt, Footprint.txt,
       Footprint.seg ⟨5.75, 4.5⟩ ⟨5.75, 8.5⟩,
       Footprint.txt] := by
  norm_num [Proposed.elements, Proposed.title, Proposed.rust_box,
    Proposed.rust_label, Proposed.rust_components, Proposed.rustChipElems,
    Proposed.java_box, Proposed.java_label, Proposed.java_components,
    Proposed.javaChipElems, Proposed.ipc_box, Proposed.ipc_label,
    Proposed.ipc_components, Proposed.ipcBulletElems, Proposed.ipc_arrow1,
    Proposed.ipc_arrow2, Proposed.ipc_arrow3, Proposed.ipc_arrow4,
    Proposed.native_clients_note, Proposed.web_clients_note,
    Proposed.client_arrow1, Proposed.client_arrow2, Proposed.database_note,
    Proposed.audit_files_note, Proposed.db_arrow, Proposed.file_arrow,
    Proposed.benefits_note, Proposed.tech_note, Proposed.bidir_note,
    Proposed.separation_line, Proposed.boundary_note, connectionPatch,
    Element.footprint, patchRect, List.enum, List.enumFrom]

set_option maxHeartbeats 1000000 in
/-- C4: rendering is painter-style back-to-front in insertion order — after
appending an element, the visible element at any point it covers is that
element (the later element draws over every earlier one) — and in both
diagrams every container precedes, in the draw order, every chip and
connector that sits on top of it. -/
theorem draw_order_insertion :
    (∀ (elems : List Element) (e : Element) (p : Pt),
      topElementAt (elems ++ [e]) p =
        if coversPt e p then some e else topElementAt elems p) ∧
    containersBeforeOverlays [] (Current.elements.map Element.footprint) ∧
    containersBeforeOverlays [] (Proposed.elements.map Element.footprint) := by
  refine ⟨?_, ?_, ?_⟩
  · intro elems e p
    unfold topElementAt
    rw [List.filter_append]
    by_cases h : coversPt e p
    · simp [h]
    · simp [h, topElementAt]
  · rw [current_footprints]
    norm_num [containersBeforeOverlays, sitsOnRect, Rect.overlaps,
      segMeetsRect, cross]
  · rw [proposed_footprints]
    norm_num [containersBeforeOverlays, sitsOnRect, Rect.overlaps,
      segMeetsRect, cross]

end PasArch
